import Mathlib

/-!
Verification of the column-classification and analysis-facade logic of
the data-analysis backend (analysis_backend.py, class DataAnalyzer).

The embedding is shallow: a pandas DataFrame becomes a list of named
columns, a cell is an optional value (missing = NaN), and each public
method of DataAnalyzer becomes a Lean function on an explicit analyzer
state.  Methods that raise or catch exceptions are modelled with Except;
calls into the external statistical library (scipy, sklearn) are the
payload of the .ok constructor, so a .error result means the external
routine was never invoked.
-/

set_option maxRecDepth 4000

namespace Analysis

/-- A scalar cell value: an integer-valued number or a text value.
Real-number cells only matter through equality tests and counts in the
verified logic, so integer-valued numerics suffice for the embedding. -/
inductive Val where
  | int : Int → Val
  | str : String → Val
deriving DecidableEq, Repr

/-- A cell of the table: none models a missing value (NaN). -/
abbrev Cell := Option Val

/-- A named pandas column: the dtype flag mirrors
pd.api.types.is_numeric_dtype, and cells are the column values in row
order. -/
structure NamedColumn where
  name : String
  numeric : Bool
  cells : List Cell
deriving DecidableEq, Repr

/-- A DataFrame is the ordered list of its named columns (all of equal
length in a well-formed frame). -/
structure DataFrame where
  cols : List NamedColumn
deriving DecidableEq, Repr

/-- The mutable state of the DataAnalyzer object: the loaded frame (None
before any load), the cached role lists, and the loaded file path. -/
structure DataAnalyzer where
  df : Option DataFrame
  continuous_cols : List String
  categorical_cols : List String
  filepath : Option String
deriving DecidableEq, Repr

/-- The analyzer state produced by DataAnalyzer.__init__. -/
def initAnalyzer : DataAnalyzer := ⟨none, [], [], none⟩

/-- Worker for first-occurrence deduplication: keep each element not yet
seen, in order. -/
def pdUniqueAux {α : Type} [DecidableEq α] (seen : List α) : List α → List α
  | [] => []
  | x :: xs =>
    if x ∈ seen then pdUniqueAux seen xs
    else x :: pdUniqueAux (x :: seen) xs

/-- First-occurrence deduplication, the order pandas Series.unique
uses. -/
def pdUnique {α : Type} [DecidableEq α] (l : List α) : List α := pdUniqueAux [] l

/-- Series.dropna: the non-missing values of a column, in order. -/
def dropna (cells : List Cell) : List Val := cells.filterMap id

/-- Series.nunique: the count of distinct non-missing values (pandas
excludes NaN by default). -/
def nunique (c : NamedColumn) : Nat := (pdUnique (dropna c.cells)).length

/-- The column names of a frame, in order. -/
def colNames (df : DataFrame) : List String := df.cols.map (fun c => c.name)

/-- Column lookup by name (first match, as pandas column access). -/
def findCol (df : DataFrame) (s : String) : Option NamedColumn :=
  df.cols.find? (fun c => c.name = s)

/-- DataAnalyzer._detect_column_types: walk the columns in order; a
numeric-dtype column with more than 10 distinct non-missing values goes
to the continuous list, every other column to the categorical list. -/
def detectColumnTypes : List NamedColumn → List String × List String
  | [] => ([], [])
  | c :: rest =>
    let r := detectColumnTypes rest
    if c.numeric then
      if nunique c > 10 then (c.name :: r.1, r.2)
      else (r.1, c.name :: r.2)
    else (r.1, c.name :: r.2)

/-- The per-column condition under which _detect_column_types puts a
column in the continuous list. -/
def isContinuousCol (c : NamedColumn) : Bool :=
  c.numeric && decide (nunique c > 10)

/-- df.dropna(how='all', axis=1): drop every column whose values are all
missing. -/
def dropAllNaCols (df : DataFrame) : DataFrame :=
  ⟨df.cols.filter (fun c => !(c.cells.all (fun x => x = none)))⟩

/-- df.dropna(how='all', axis=0): drop every row index at which every
column is missing, keeping the surviving rows in order. -/
def dropAllNaRows (df : DataFrame) : DataFrame :=
  let n := (df.cols.map (fun c => c.cells.length)).foldr max 0
  let keep := (List.range n).filter
    (fun i => df.cols.any (fun c => (c.cells.getD i none).isSome))
  ⟨df.cols.map (fun c => { c with cells := keep.map (fun i => c.cells.getD i none) })⟩

/-- DataAnalyzer.load_data, after the external CSV parse: store the
frame with all-missing columns and fully-empty rows dropped, then cache
the detected roles.  Read or decode failures happen in the external
parser, before this step. -/
def load_data (a : DataAnalyzer) (filepath : String) (raw : DataFrame) : DataAnalyzer :=
  let cleaned := dropAllNaRows (dropAllNaCols raw)
  let roles := detectColumnTypes cleaned.cols
  { a with
      df := some cleaned
      filepath := some filepath
      continuous_cols := roles.1
      categorical_cols := roles.2 }

/-- Re-running DataAnalyzer._detect_column_types on the analyzer state:
it reads self.df and overwrites the two cached role lists; iterating a
missing frame would raise, modelled by none. -/
def detectOn (a : DataAnalyzer) : Option DataAnalyzer :=
  a.df.map (fun df =>
    { a with
        continuous_cols := (detectColumnTypes df.cols).1
        categorical_cols := (detectColumnTypes df.cols).2 })

/-- C1: for every column of the loaded frame, classification assigns
Continuous exactly when the dtype is numeric and the distinct
non-missing count exceeds 10, and Categorical otherwise: the continuous
list is exactly the names of the columns satisfying isContinuousCol and
the categorical list exactly the names of the rest, each in column
order. -/
theorem classification_rule (cols : List NamedColumn) :
    (detectColumnTypes cols).1
      = (cols.filter (fun c => isContinuousCol c)).map (fun c => c.name) ∧
    (detectColumnTypes cols).2
      = (cols.filter (fun c => !(isContinuousCol c))).map (fun c => c.name) := by
  induction cols with
  | nil => exact ⟨rfl, rfl⟩
  | cons c rest ih =>
    simp only [detectColumnTypes, List.filter_cons]
    by_cases hn : c.numeric
    · by_cases hu : nunique c > 10
      · have hc : isContinuousCol c = true := by simp [isContinuousCol, hn, hu]
        simp [hn, hu, hc, ih.1, ih.2]
      · have hc : isContinuousCol c = false := by simp [isContinuousCol, hu]
        simp [hn, hu, hc, ih.1, ih.2]
    · have hc : isContinuousCol c = false := by simp [isContinuousCol, hn]
      simp [hn, hc, ih.1, ih.2]

/-- The no-dataset message every analysis method returns first. -/
def noDataMsg : String := "错误: 请先加载数据"

/-- The no-dataset message every plot method raises first. -/
def plotNoDataMsg : String := "请先加载数据"

/-- A single-quote character, written by code so the message strings can
reproduce the source text exactly. -/
def squote : String := "\x27"

/-- Modelled text of a caught pandas KeyError on a missing column: in
the source the except-branch surfaces str(e), which for a KeyError is
the quoted column name. -/
def keyErrorMsg (c : String) : String := "错误: " ++ squote ++ c ++ squote

/-- The run_t_test group-count error message, which interpolates the
actual distinct-category count. -/
def tTestGroupCountMsg (c : String) (n : Nat) : String :=
  "错误: " ++ squote ++ c ++ squote ++ " 必须是二分类变量，当前有 "
    ++ toString n ++ " 个类别"

/-- The mann_whitney_test group-count error message, which names the
column only. -/
def mwGroupMsg (c : String) : String :=
  "错误: " ++ squote ++ c ++ squote ++ " 必须是二分类变量"

/-- The continuous-column values of the rows whose grouping cell equals
the given value, with missing values dropped: the source expression
self.df[self.df[cat_col] == v][cont_col].dropna().  A missing grouping
cell never equals v, matching pandas NaN comparison. -/
def groupVals (df : DataFrame) (cat_col cont_col : String) (v : Val) : List Val :=
  match findCol df cat_col, findCol df cont_col with
  | some catc, some contc =>
    ((catc.cells.zip contc.cells).filter
      (fun p => decide (p.1 = some v))).filterMap (fun p => p.2)
  | _, _ => []

/-- DataAnalyzer.run_t_test up to the external call: checks the frame,
the two columns, the two-category requirement (reporting the actual
count), and non-empty groups; the .ok payload is the pair of group
samples handed to scipy.stats.ttest_ind, so an .error means the external
routine is never invoked. -/
def run_t_test (a : DataAnalyzer) (cat_col cont_col : String) :
    Except String (List Val × List Val) :=
  match a.df with
  | none => .error noDataMsg
  | some df =>
    match findCol df cat_col with
    | none => .error "错误: 列不存在"
    | some catc =>
      if cont_col ∉ colNames df then .error "错误: 列不存在"
      else
        match (pdUnique catc.cells).filterMap id with
        | [v0, v1] =>
          let group1_data := groupVals df cat_col cont_col v0
          let group2_data := groupVals df cat_col cont_col v1
          if group1_data.length = 0 ∨ group2_data.length = 0 then
            .error "错误: 分组后没有有效数据"
          else .ok (group1_data, group2_data)
        | other => .error (tTestGroupCountMsg cat_col other.length)

/-- DataAnalyzer.mann_whitney_test up to the external call: no upfront
column check (a missing column is a caught KeyError), a two-category
check whose message omits the count, then the two group samples handed
to scipy.stats.mannwhitneyu as the .ok payload. -/
def mann_whitney_test (a : DataAnalyzer) (cat_col cont_col : String) :
    Except String (List Val × List Val) :=
  match a.df with
  | none => .error noDataMsg
  | some df =>
    match findCol df cat_col with
    | none => .error (keyErrorMsg cat_col)
    | some catc =>
      match pdUnique (dropna catc.cells) with
      | [v0, v1] =>
        match findCol df cont_col with
        | none => .error (keyErrorMsg cont_col)
        | some _ =>
          .ok (groupVals df cat_col cont_col v0, groupVals df cat_col cont_col v1)
      | _ => .error (mwGroupMsg cat_col)

/-- The per-category value groups produced by
df.groupby(cat_col)[cont_col] with per-group dropna; the groupby key
order (pandas sorts keys) is abstracted to first-occurrence order, which
no verified property depends on. -/
def groupbyGroups (df : DataFrame) (cat_col cont_col : String) : List (List Val) :=
  match findCol df cat_col with
  | none => []
  | some catc =>
    (pdUnique (dropna catc.cells)).map (fun v => groupVals df cat_col cont_col v)

/-- DataAnalyzer.one_way_anova up to the external call: the non-empty
groups are the .ok payload handed to scipy.stats.f_oneway. -/
def one_way_anova (a : DataAnalyzer) (cat_col cont_col : String) :
    Except String (List (List Val)) :=
  match a.df with
  | none => .error noDataMsg
  | some df =>
    match findCol df cat_col with
    | none => .error (keyErrorMsg cat_col)
    | some _ =>
      if cont_col ∉ colNames df then .error (keyErrorMsg cont_col)
      else
        let group_data := (groupbyGroups df cat_col cont_col).filter
          (fun g => g.length > 0)
        if group_data.length < 2 then .error "错误: 至少需要2个有效分组"
        else .ok group_data

/-- DataAnalyzer.kruskal_wallis_test up to the external call: same
validation skeleton as one_way_anova, payload handed to
scipy.stats.kruskal. -/
def kruskal_wallis_test (a : DataAnalyzer) (cat_col cont_col : String) :
    Except String (List (List Val)) :=
  match a.df with
  | none => .error noDataMsg
  | some df =>
    match findCol df cat_col with
    | none => .error (keyErrorMsg cat_col)
    | some _ =>
      if cont_col ∉ colNames df then .error (keyErrorMsg cont_col)
      else
        let group_data := (groupbyGroups df cat_col cont_col).filter
          (fun g => g.length > 0)
        if group_data.length < 2 then .error "错误: 至少需要2个有效分组"
        else .ok group_data

/-- The row-aligned non-missing pairs of two columns: the source
expression self.df[[c1, c2]].dropna(), as used by the paired t-test,
the linear regression and (per cell pair) pd.crosstab. -/
def pairedRows (c1 c2 : NamedColumn) : List (Val × Val) :=
  (c1.cells.zip c2.cells).filterMap (fun p =>
    match p with
    | (some x, some y) => some (x, y)
    | _ => none)

/-- DataAnalyzer.chi_square_test up to the external call: the aligned
non-missing cell pairs feeding pd.crosstab and
scipy.stats.chi2_contingency are the .ok payload. -/
def chi_square_test (a : DataAnalyzer) (col1 col2 : String) :
    Except String (List (Val × Val)) :=
  match a.df with
  | none => .error noDataMsg
  | some df =>
    match findCol df col1 with
    | none => .error (keyErrorMsg col1)
    | some c1 =>
      match findCol df col2 with
      | none => .error (keyErrorMsg col2)
      | some c2 => .ok (pairedRows c1 c2)

/-- DataAnalyzer.paired_t_test up to the external call: the inner-joined
sample pairs handed to scipy.stats.ttest_rel are the .ok payload. -/
def paired_t_test (a : DataAnalyzer) (col1 col2 : String) :
    Except String (List (Val × Val)) :=
  match a.df with
  | none => .error noDataMsg
  | some df =>
    match findCol df col1 with
    | none => .error (keyErrorMsg col1)
    | some c1 =>
      match findCol df col2 with
      | none => .error (keyErrorMsg col2)
      | some c2 => .ok (pairedRows c1 c2)

/-- DataAnalyzer.linear_regression up to the external call: the aligned
(x, y) pairs handed to scipy.stats.linregress are the .ok payload. -/
def linear_regression (a : DataAnalyzer) (x_col y_col : String) :
    Except String (List (Val × Val)) :=
  match a.df with
  | none => .error noDataMsg
  | some df =>
    match findCol df x_col with
    | none => .error (keyErrorMsg x_col)
    | some c1 =>
      match findCol df y_col with
      | none => .error (keyErrorMsg y_col)
      | some c2 => .ok (pairedRows c1 c2)

/-- DataAnalyzer.get_descriptive_stats up to the external describe call:
checks the frame and the column, then the column cells are the .ok
payload. -/
def get_descriptive_stats (a : DataAnalyzer) (column : String) :
    Except String (List Cell) :=
  match a.df with
  | none => .error noDataMsg
  | some df =>
    match findCol df column with
    | none => .error ("错误: 列 " ++ squote ++ column ++ squote ++ " 不存在")
    | some c => .ok c.cells

/-- DataAnalyzer.plot_histogram up to the external plotting call: the
raised ValueError messages become .error values. -/
def plot_histogram (a : DataAnalyzer) (column : String) :
    Except String (List Cell) :=
  match a.df with
  | none => .error plotNoDataMsg
  | some df =>
    match findCol df column with
    | none => .error ("列 " ++ squote ++ column ++ squote ++ " 不存在")
    | some c => .ok c.cells

/-- Which external normality procedure is invoked: Kolmogorov-Smirnov
carries the args tuple computed from the sample itself (its mean, and
its ddof-1 variance whose square root is the std the source passes). -/
inductive NormChoice where
  | ks (mean variance : ℚ)
  | shapiro
deriving DecidableEq, Repr

/-- Numeric reading of a cell value. -/
def valNum : Val → Option ℚ
  | .int i => some (i : ℚ)
  | .str _ => none

/-- Series.mean of a numeric sample. -/
def ratMean (l : List ℚ) : ℚ := l.sum / l.length

/-- The square of Series.std (ddof = 1) of a numeric sample. -/
def ratVar (l : List ℚ) : ℚ :=
  ((l.map (fun x => (x - ratMean l) ^ 2)).sum) / ((l.length : ℚ) - 1)

/-- The outcome of the normality dispatch: the non-missing sample size
and the procedure chosen for it. -/
structure NormalityResult where
  n : Nat
  choice : NormChoice
deriving DecidableEq, Repr

/-- DataAnalyzer.normality_test up to the external call: dropna the
column, then dispatch on the sample size with the fixed branch point
5000.  Non-numeric data makes the external routine raise, caught by the
source's except branch; the message here stands for that caught
exception text. -/
def normality_test (a : DataAnalyzer) (column : String) :
    Except String NormalityResult :=
  match a.df with
  | none => .error noDataMsg
  | some df =>
    match findCol df column with
    | none => .error (keyErrorMsg column)
    | some c =>
      match (dropna c.cells).mapM valNum with
      | none => .error "错误: 非数值数据"
      | some data =>
        if data.length > 5000 then
          .ok ⟨data.length, .ks (ratMean data) (ratVar data)⟩
        else .ok ⟨data.length, .shapiro⟩

/-- Row count of df[columns].dropna(): the rows at which every selected
column is non-missing. -/
def dropnaRowsCount (cs : List NamedColumn) : Nat :=
  match cs with
  | [] => 0
  | c :: _ =>
    ((List.range c.cells.length).filter
      (fun i => cs.all (fun k => (k.cells.getD i none).isSome))).length

/-- What the K-Means figure exposes: the caller-chosen cluster count the
left panel and the axvline highlight, the prepared sample size, and the
list of k values the elbow loop computes an inertia for. -/
structure KMeansPlot where
  nClusters : Nat
  nSamples : Nat
  elbowKList : List Nat
deriving DecidableEq, Repr

/-- DataAnalyzer.plot_kmeans_cluster up to the external calls: the elbow
loop runs over range(1, min(10, len(data))), and n_clusters is passed
through untouched; a missing selected column is an uncaught pandas
KeyError, modelled as the final error value. -/
def plot_kmeans_cluster (a : DataAnalyzer) (columns : Option (List String))
    (n_clusters : Nat) : Except String KMeansPlot :=
  match a.df with
  | none => .error plotNoDataMsg
  | some df =>
    let cols := columns.getD a.continuous_cols
    if cols.length < 2 then .error "至少需要2个连续变量进行聚类"
    else if cols.all (fun s => s ∈ colNames df) then
      let n := dropnaRowsCount (cols.filterMap (findCol df))
      .ok ⟨n_clusters, n, List.range' 1 (min 10 n - 1)⟩
    else .error "KeyError"

/-- The run_t_test conclusion line as a function of the p-value: a
single 0.05 threshold. -/
def tTestConclusion (p : ℚ) : String :=
  if p < 0.05 then "*** 结论: p < 0.05, 两组存在显著差异 ***"
  else "*** 结论: p >= 0.05, 两组无显著差异 ***"

/-- The mann_whitney_test conclusion line: a single 0.05 threshold. -/
def mannWhitneyConclusion (p : ℚ) : String :=
  if p < 0.05 then "*** 结论: 两组存在显著差异 (p < 0.05) ***"
  else "结论: 两组无显著差异 (p ≥ 0.05)"

/-- The kruskal_wallis_test conclusion line: a single 0.05 threshold. -/
def kruskalConclusion (p : ℚ) : String :=
  if p < 0.05 then "*** 结论: 各组间存在显著差异 (p < 0.05) ***"
  else "结论: 各组间无显著差异 (p ≥ 0.05)"

/-- The paired_t_test conclusion line: a single 0.05 threshold. -/
def pairedTConclusion (p : ℚ) : String :=
  if p < 0.05 then "*** 结论: 前后存在显著差异 (p < 0.05) ***"
  else "结论: 前后无显著差异 (p ≥ 0.05)"

/-- The one_way_anova conclusion line: three thresholds, four labels. -/
def anovaConclusion (p : ℚ) : String :=
  if p < 0.001 then "*** 结论: 各组间存在极显著差异 (p < 0.001) ***"
  else if p < 0.01 then "*** 结论: 各组间存在非常显著差异 (p < 0.01) ***"
  else if p < 0.05 then "*** 结论: 各组间存在显著差异 (p < 0.05) ***"
  else "结论: 各组间无显著差异 (p ≥ 0.05)"

/-- The chi_square_test conclusion line: three thresholds, four
labels. -/
def chiSquareConclusion (p : ℚ) : String :=
  if p < 0.001 then "*** 结论: 两变量间存在极显著关联 (p < 0.001) ***"
  else if p < 0.01 then "*** 结论: 两变量间存在非常显著关联 (p < 0.01) ***"
  else if p < 0.05 then "*** 结论: 两变量间存在显著关联 (p < 0.05) ***"
  else "结论: 两变量间无显著关联 (p ≥ 0.05)"

/-- The linear_regression significance label: three thresholds, four
labels. -/
def linregSigLabel (p : ℚ) : String :=
  if p < 0.001 then "极显著 (p < 0.001)"
  else if p < 0.01 then "非常显著 (p < 0.01)"
  else if p < 0.05 then "显著 (p < 0.05)"
  else "不显著 (p ≥ 0.05)"

/-- Modelled from the spec: the uniform three-threshold significance
tier the interpretation policy claims every hypothesis test applies
(0 below 0.001, 1 below 0.01, 2 below 0.05, 3 otherwise). -/
def specSigTier (p : ℚ) : Nat :=
  if p < 0.001 then 0
  else if p < 0.01 then 1
  else if p < 0.05 then 2
  else 3

/-- Helper: the two detected role lists together contain each name
exactly as often as the column list does. -/
theorem detect_count_partition (cols : List NamedColumn) (s : String) :
    ((detectColumnTypes cols).1.count s) + ((detectColumnTypes cols).2.count s)
      = ((cols.map (fun c => c.name)).count s) := by
  induction cols with
  | nil => rfl
  | cons c rest ih =>
    by_cases hn : c.numeric <;> by_cases hu : nunique c > 10 <;>
      simp [detectColumnTypes, hn, hu, List.count_cons] <;> omega

/-- Example column: numeric dtype, 11 distinct values, no missing. -/
def colAge : NamedColumn :=
  ⟨"Age", true, [some (.int 1), some (.int 2), some (.int 3), some (.int 4),
    some (.int 5), some (.int 6), some (.int 7), some (.int 8),
    some (.int 9), some (.int 10), some (.int 11)]⟩

/-- Example column: numeric dtype, 2 distinct values, no missing. -/
def colSex : NamedColumn :=
  ⟨"Sex", true, [some (.int 0), some (.int 1), some (.int 0), some (.int 1),
    some (.int 0), some (.int 1), some (.int 0), some (.int 1),
    some (.int 0), some (.int 1), some (.int 0)]⟩

/-- Example frame with one continuous and one categorical column. -/
def dfEx : DataFrame := ⟨[colAge, colSex]⟩

/-- C5: after every load, the analyzer caches the cleaned frame, the two
cached role lists partition its column names (each name appears in the
two lists jointly exactly as often as among the columns; under distinct
names the lists are disjoint), classification is total by construction,
and a frame left with no columns yields two empty lists. -/
theorem classification_partition_after_load (a : DataAnalyzer) (fp : String) (raw : DataFrame) :
    ∃ df : DataFrame,
      (load_data a fp raw).df = some df ∧
      (∀ s : String,
        ((load_data a fp raw).continuous_cols.count s)
          + ((load_data a fp raw).categorical_cols.count s)
          = ((colNames df).count s)) ∧
      ((colNames df).Nodup →
        ∀ s : String,
          ¬(s ∈ (load_data a fp raw).continuous_cols ∧
            s ∈ (load_data a fp raw).categorical_cols)) ∧
      (df.cols = [] →
        (load_data a fp raw).continuous_cols = [] ∧
        (load_data a fp raw).categorical_cols = []) := by
  refine ⟨dropAllNaRows (dropAllNaCols raw), rfl, ?_, ?_, ?_⟩
  · intro s
    exact detect_count_partition _ s
  · intro hnd s hmem
    have hcount := detect_count_partition (dropAllNaRows (dropAllNaCols raw)).cols s
    have h1 : 0 < (load_data a fp raw).continuous_cols.count s :=
      List.count_pos_iff.mpr hmem.1
    have h2 : 0 < (load_data a fp raw).categorical_cols.count s :=
      List.count_pos_iff.mpr hmem.2
    have hle : ((colNames (dropAllNaRows (dropAllNaCols raw))).count s) ≤ 1 :=
      List.nodup_iff_count_le_one.mp hnd s
    simp only [load_data] at h1 h2
    simp only [colNames] at hle
    omega
  · intro h
    simp [load_data, h, detectColumnTypes]

/-- C5 witness: loading the concrete two-column frame gives lists that
partition the names; instantiated at the name Age. -/
theorem classification_partition_after_load_witness :
    ((load_data initAnalyzer "data.csv" dfEx).continuous_cols.count "Age")
      + ((load_data initAnalyzer "data.csv" dfEx).categorical_cols.count "Age")
      = ((colNames (dropAllNaRows (dropAllNaCols dfEx))).count "Age") ∧
    ¬("Age" ∈ (load_data initAnalyzer "data.csv" dfEx).continuous_cols ∧
      "Age" ∈ (load_data initAnalyzer "data.csv" dfEx).categorical_cols) := by
  obtain ⟨df, hdf, hcount, hdisj, -⟩ :=
    classification_partition_after_load initAnalyzer "data.csv" dfEx
  have hdf2 : (load_data initAnalyzer "data.csv" dfEx).df
      = some (dropAllNaRows (dropAllNaCols dfEx)) := rfl
  rw [hdf] at hdf2
  injection hdf2 with he
  subst he
  exact ⟨hcount "Age", hdisj (by decide) "Age"⟩

/-- C6: role assignment is a deterministic total function of the current
frame: two analyzer states holding the same frame get identical role
lists from re-detection, and re-running detection on an already-detected
state reproduces the state unchanged. -/
theorem classification_deterministic (a b : DataAnalyzer) (h : a.df = b.df) :
    (detectOn a).map (fun x => (x.continuous_cols, x.categorical_cols))
      = (detectOn b).map (fun x => (x.continuous_cols, x.categorical_cols)) ∧
    (∀ a2 : DataAnalyzer, detectOn a = some a2 → detectOn a2 = some a2) := by
  constructor
  · cases hdf : a.df with
    | none => simp [detectOn, hdf, ← h]
    | some df => simp [detectOn, hdf, ← h]
  · intro a2 h2
    cases hdf : a.df with
    | none => simp [detectOn, hdf] at h2
    | some df =>
      simp only [detectOn, hdf, Option.map_some'] at h2
      injection h2 with he
      subst he
      simp [detectOn, hdf]

/-- C6 witness: two analyzer states holding the example frame but with
different stale cached roles re-detect to identical role lists. -/
theorem classification_deterministic_witness :
    (detectOn ⟨some dfEx, ["stale"], [], none⟩).map
        (fun x => (x.continuous_cols, x.categorical_cols))
      = (detectOn ⟨some dfEx, [], ["other"], some "p"⟩).map
        (fun x => (x.continuous_cols, x.categorical_cols)) ∧
    (∀ a2 : DataAnalyzer,
      detectOn ⟨some dfEx, ["stale"], [], none⟩ = some a2 → detectOn a2 = some a2) :=
  classification_deterministic ⟨some dfEx, ["stale"], [], none⟩
    ⟨some dfEx, [], ["other"], some "p"⟩ rfl

/-- Helper: deduplicating and then dropping missing cells equals
dropping missing cells and then deduplicating, whenever the two seen
lists agree on the present values. -/
theorem pdUniqueAux_filterMap_id (l : List Cell) (seen₁ : List Cell) (seen₂ : List Val)
    (hinv : ∀ v : Val, (some v ∈ seen₁ ↔ v ∈ seen₂)) :
    (pdUniqueAux seen₁ l).filterMap id = pdUniqueAux seen₂ (l.filterMap id) := by
  induction l generalizing seen₁ seen₂ with
  | nil => rfl
  | cons x xs ih =>
    cases x with
    | none =>
      by_cases hmem : (none : Cell) ∈ seen₁
      · simpa only [pdUniqueAux, if_pos hmem, List.filterMap_cons]
          using ih seen₁ seen₂ hinv
      · simp only [pdUniqueAux, if_neg hmem, List.filterMap_cons]
        exact ih (none :: seen₁) seen₂ (fun v => by simp [List.mem_cons, hinv v])
    | some w =>
      by_cases hmem : (some w : Cell) ∈ seen₁
      · have hw : w ∈ seen₂ := (hinv w).mp hmem
        simp only [pdUniqueAux, if_pos hmem, List.filterMap_cons, id_eq,
          if_pos hw]
        exact ih seen₁ seen₂ hinv
      · have hw : w ∉ seen₂ := fun h => hmem ((hinv w).mpr h)
        simp only [pdUniqueAux, if_neg hmem, List.filterMap_cons, id_eq,
          if_neg hw]
        exact congrArg (w :: ·)
          (ih (some w :: seen₁) (w :: seen₂)
            (fun v => by simp [List.mem_cons, hinv v]))

/-- Helper: the non-missing entries of the deduplicated column equal the
deduplication of the non-missing entries, so run_t_test (unique then
notna filter) and mann_whitney_test (dropna then unique) count the same
distinct non-missing values. -/
theorem pdUnique_filterMap_id (l : List Cell) :
    (pdUnique l).filterMap id = pdUnique (l.filterMap id) :=
  pdUniqueAux_filterMap_id l [] [] (fun v => by simp)

/-- C2 counterexample: the independent t-test conclusion conflates a
p-value below 0.001 with one between 0.01 and 0.05, while the claimed
three-threshold tiering (and the linear-regression label that follows
it) separates them, so the reports do not all apply the same
three-threshold labeling. -/
theorem significance_label_not_uniform_counterexample :
    tTestConclusion 0.0009 = tTestConclusion 0.049 ∧
    specSigTier 0.0009 ≠ specSigTier 0.049 ∧
    linregSigLabel 0.0009 ≠ linregSigLabel 0.049 := by
  have h1 : (0.0009 : ℚ) < 0.001 := by norm_num
  have h2 : ¬((0.049 : ℚ) < 0.001) := by norm_num
  have h3 : ¬((0.049 : ℚ) < 0.01) := by norm_num
  have h4 : (0.049 : ℚ) < 0.05 := by norm_num
  have h5 : (0.0009 : ℚ) < 0.05 := by norm_num
  refine ⟨?_, ?_, ?_⟩
  · unfold tTestConclusion
    rw [if_pos h5, if_pos h4]
  · unfold specSigTier
    rw [if_pos h1, if_neg h2, if_neg h3, if_pos h4]
    decide
  · unfold linregSigLabel
    rw [if_pos h1, if_neg h2, if_neg h3, if_pos h4]
    decide

/-- C2 amended: the ANOVA, chi-square and linear-regression labels are
pure functions of the three-threshold tier and distinguish all four
tiers, while the independent t-test, Mann-Whitney, Kruskal-Wallis and
paired t-test conclusions depend on the single threshold 0.05 only. -/
theorem significance_label_schemes :
    (∀ p q : ℚ, specSigTier p = specSigTier q ↔ anovaConclusion p = anovaConclusion q) ∧
    (∀ p q : ℚ, specSigTier p = specSigTier q ↔ chiSquareConclusion p = chiSquareConclusion q) ∧
    (∀ p q : ℚ, specSigTier p = specSigTier q ↔ linregSigLabel p = linregSigLabel q) ∧
    (∀ p q : ℚ, ((p < 0.05) ↔ (q < 0.05)) ↔ tTestConclusion p = tTestConclusion q) ∧
    (∀ p q : ℚ, ((p < 0.05) ↔ (q < 0.05)) ↔ mannWhitneyConclusion p = mannWhitneyConclusion q) ∧
    (∀ p q : ℚ, ((p < 0.05) ↔ (q < 0.05)) ↔ kruskalConclusion p = kruskalConclusion q) ∧
    (∀ p q : ℚ, ((p < 0.05) ↔ (q < 0.05)) ↔ pairedTConclusion p = pairedTConclusion q) := by
  refine ⟨?_, ?_, ?_, ?_, ?_, ?_, ?_⟩
  · intro p q
    unfold specSigTier anovaConclusion
    split_ifs <;> decide
  · intro p q
    unfold specSigTier chiSquareConclusion
    split_ifs <;> decide
  · intro p q
    unfold specSigTier linregSigLabel
    split_ifs <;> decide
  · intro p q
    unfold tTestConclusion
    by_cases hp : p < 0.05 <;> by_cases hq : q < 0.05 <;> simp [hp, hq]
  · intro p q
    unfold mannWhitneyConclusion
    by_cases hp : p < 0.05 <;> by_cases hq : q < 0.05 <;> simp [hp, hq]
  · intro p q
    unfold kruskalConclusion
    by_cases hp : p < 0.05 <;> by_cases hq : q < 0.05 <;> simp [hp, hq]
  · intro p q
    unfold pairedTConclusion
    by_cases hp : p < 0.05 <;> by_cases hq : q < 0.05 <;> simp [hp, hq]

/-- Example grouping column with 3 distinct non-missing values. -/
def gCol3 : NamedColumn := ⟨"g", true, [some (.int 0), some (.int 1), some (.int 2)]⟩

/-- Example grouping column with 1 distinct non-missing value. -/
def gCol1 : NamedColumn := ⟨"g", true, [some (.int 0), some (.int 0), some (.int 0)]⟩

/-- Example continuous column for the group tests. -/
def xCol : NamedColumn := ⟨"x", true, [some (.int 5), some (.int 6), some (.int 7)]⟩

/-- Analyzer state holding the 3-category grouping frame. -/
def aG3 : DataAnalyzer := ⟨some ⟨[gCol3, xCol]⟩, [], [], none⟩

/-- Analyzer state holding the 1-category grouping frame. -/
def aG1 : DataAnalyzer := ⟨some ⟨[gCol1, xCol]⟩, [], [], none⟩

/-- C3 counterexample: grouping columns with 3 and with 1 distinct
non-missing values make mann_whitney_test fail with the identical error
message, so that message cannot report the actual distinct-value
count. -/
theorem mann_whitney_message_omits_count :
    nunique gCol3 = 3 ∧ nunique gCol1 = 1 ∧
    mann_whitney_test aG3 "g" "x" = .error (mwGroupMsg "g") ∧
    mann_whitney_test aG1 "g" "x" = .error (mwGroupMsg "g") :=
  ⟨by decide, by decide, rfl, rfl⟩

/-- C3 amended: when the grouping column's distinct non-missing count is
not 2, both two-group tests fail before the external routine is invoked
(an .ok result is what carries the samples to scipy); the t-test message
interpolates the actual count, and so differs between counts, while the
Mann-Whitney message only names the column. -/
theorem two_group_count_validation (a : DataAnalyzer) (df : DataFrame)
    (cat_col cont_col : String) (catc : NamedColumn)
    (hdf : a.df = some df)
    (hcat : findCol df cat_col = some catc)
    (hcont : cont_col ∈ colNames df)
    (hn : (pdUnique (dropna catc.cells)).length ≠ 2) :
    run_t_test a cat_col cont_col
      = .error (tTestGroupCountMsg cat_col (pdUnique (dropna catc.cells)).length) ∧
    mann_whitney_test a cat_col cont_col = .error (mwGroupMsg cat_col) ∧
    tTestGroupCountMsg "g" 1 ≠ tTestGroupCountMsg "g" 3 := by
  have hcomm : (pdUnique catc.cells).filterMap id = pdUnique (dropna catc.cells) :=
    pdUnique_filterMap_id catc.cells
  refine ⟨?_, ?_, by decide⟩
  · simp only [run_t_test, hdf, hcat, hcomm]
    rw [if_neg (not_not_intro hcont)]
    generalize pdUnique (dropna catc.cells) = u at hn ⊢
    rcases u with - | ⟨v0, - | ⟨v1, - | ⟨w, ws⟩⟩⟩
    · rfl
    · rfl
    · simp at hn
    · rfl
  · simp only [mann_whitney_test, hdf, hcat]
    generalize pdUnique (dropna catc.cells) = u at hn ⊢
    rcases u with - | ⟨v0, - | ⟨v1, - | ⟨w, ws⟩⟩⟩
    · rfl
    · rfl
    · simp at hn
    · rfl

/-- C3 witness: on the concrete 3-category frame both tests fail with
their respective messages, the t-test one reporting the count 3. -/
theorem two_group_count_validation_witness :
    run_t_test aG3 "g" "x" = .error (tTestGroupCountMsg "g" 3) ∧
    mann_whitney_test aG3 "g" "x" = .error (mwGroupMsg "g") := by
  have h := two_group_count_validation aG3 ⟨[gCol3, xCol]⟩ "g" "x" gCol3
    rfl (by decide) (by decide) (by decide)
  have h3 : (pdUnique (dropna gCol3.cells)).length = 3 := by decide
  rw [h3] at h
  exact ⟨h.1, h.2.1⟩

/-- Helper: dropna of an all-present constant column keeps every
entry. -/
theorem dropna_replicate (n : Nat) (v : Val) :
    dropna (List.replicate n (some v)) = List.replicate n v := by
  induction n with
  | zero => rfl
  | succ n ih =>
    simp only [List.replicate_succ, dropna, List.filterMap_cons, id_eq] at ih ⊢
    simp [ih]

/-- Helper: numeric reading of a constant zero column. -/
theorem mapM_valNum_replicate (n : Nat) :
    (List.replicate n (Val.int 0)).mapM valNum = some (List.replicate n (0 : ℚ)) := by
  induction n with
  | zero => rfl
  | succ n ih =>
    rw [List.replicate_succ, List.replicate_succ, List.mapM_cons, ih]
    simp [valNum]

/-- C4: the normality test dispatches on the size of the column's
non-missing sample with the fixed branch point 5000: above it the
Kolmogorov-Smirnov procedure runs, parameterised by the sample's own
mean and (squared) standard deviation, and at or below it the
Shapiro-Wilk procedure runs. -/
theorem normality_dispatch (a : DataAnalyzer) (df : DataFrame) (column : String)
    (c : NamedColumn) (data : List ℚ)
    (hdf : a.df = some df)
    (hcol : findCol df column = some c)
    (hdata : (dropna c.cells).mapM valNum = some data) :
    (data.length > 5000 →
      normality_test a column
        = .ok ⟨data.length, .ks (ratMean data) (ratVar data)⟩) ∧
    (data.length ≤ 5000 →
      normality_test a column = .ok ⟨data.length, .shapiro⟩) := by
  constructor
  · intro h
    simp only [normality_test, hdf, hcol, hdata]
    rw [if_pos h]
  · intro h
    simp only [normality_test, hdf, hcol, hdata]
    rw [if_neg (by omega)]

/-- Example column with 5001 non-missing numeric entries. -/
def bigCol : NamedColumn := ⟨"x", true, List.replicate 5001 (some (.int 0))⟩

/-- Analyzer state holding the 5001-row frame. -/
def aBig : DataAnalyzer := ⟨some ⟨[bigCol]⟩, [], [], none⟩

/-- Example column with 4999 non-missing numeric entries. -/
def smallCol : NamedColumn := ⟨"y", true, List.replicate 4999 (some (.int 0))⟩

/-- Analyzer state holding the 4999-row frame. -/
def aSmall : DataAnalyzer := ⟨some ⟨[smallCol]⟩, [], [], none⟩

/-- C4 witness: the 5001-entry sample takes the Kolmogorov-Smirnov
branch with the sample-derived parameters, the 4999-entry sample the
Shapiro-Wilk branch. -/
theorem normality_dispatch_witness :
    normality_test aBig "x"
      = .ok ⟨5001, .ks (ratMean (List.replicate 5001 (0 : ℚ)))
          (ratVar (List.replicate 5001 (0 : ℚ)))⟩ ∧
    normality_test aSmall "y" = .ok ⟨4999, .shapiro⟩ := by
  have hb : (dropna bigCol.cells).mapM valNum
      = some (List.replicate 5001 (0 : ℚ)) := by
    show (dropna (List.replicate 5001 (some (.int 0)))).mapM valNum = _
    rw [dropna_replicate]
    exact mapM_valNum_replicate 5001
  have hs : (dropna smallCol.cells).mapM valNum
      = some (List.replicate 4999 (0 : ℚ)) := by
    show (dropna (List.replicate 4999 (some (.int 0)))).mapM valNum = _
    rw [dropna_replicate]
    exact mapM_valNum_replicate 4999
  constructor
  · have h := (normality_dispatch aBig ⟨[bigCol]⟩ "x" bigCol
      (List.replicate 5001 (0 : ℚ)) rfl rfl hb).1
      (by rw [List.length_replicate]; omega)
    rw [List.length_replicate] at h
    exact h
  · have h := (normality_dispatch aSmall ⟨[smallCol]⟩ "y" smallCol
      (List.replicate 4999 (0 : ℚ)) rfl rfl hs).2
      (by rw [List.length_replicate]; omega)
    rw [List.length_replicate] at h
    exact h

/-- C7: with no frame loaded, every embedded public operation fails with
the no-dataset message, whatever columns or parameters are requested:
the check precedes any column lookup, group computation or external
call. -/
theorem no_dataset_checked_first (a : DataAnalyzer) (c1 c2 : String)
    (cols : Option (List String)) (k : Nat) (h : a.df = none) :
    get_descriptive_stats a c1 = .error noDataMsg ∧
    run_t_test a c1 c2 = .error noDataMsg ∧
    mann_whitney_test a c1 c2 = .error noDataMsg ∧
    one_way_anova a c1 c2 = .error noDataMsg ∧
    kruskal_wallis_test a c1 c2 = .error noDataMsg ∧
    chi_square_test a c1 c2 = .error noDataMsg ∧
    paired_t_test a c1 c2 = .error noDataMsg ∧
    linear_regression a c1 c2 = .error noDataMsg ∧
    normality_test a c1 = .error noDataMsg ∧
    plot_histogram a c1 = .error plotNoDataMsg ∧
    plot_kmeans_cluster a cols k = .error plotNoDataMsg := by
  refine ⟨?_, ?_, ?_, ?_, ?_, ?_, ?_, ?_, ?_, ?_, ?_⟩ <;>
    simp only [get_descriptive_stats, run_t_test, mann_whitney_test,
      one_way_anova, kruskal_wallis_test, chi_square_test, paired_t_test,
      linear_regression, normality_test, plot_histogram, plot_kmeans_cluster, h]

/-- C7 witness: the freshly constructed analyzer rejects every operation
with the no-dataset message. -/
theorem no_dataset_checked_first_witness :
    get_descriptive_stats initAnalyzer "Age" = .error noDataMsg ∧
    run_t_test initAnalyzer "Age" "Sex" = .error noDataMsg ∧
    mann_whitney_test initAnalyzer "Age" "Sex" = .error noDataMsg ∧
    one_way_anova initAnalyzer "Age" "Sex" = .error noDataMsg ∧
    kruskal_wallis_test initAnalyzer "Age" "Sex" = .error noDataMsg ∧
    chi_square_test initAnalyzer "Age" "Sex" = .error noDataMsg ∧
    paired_t_test initAnalyzer "Age" "Sex" = .error noDataMsg ∧
    linear_regression initAnalyzer "Age" "Sex" = .error noDataMsg ∧
    normality_test initAnalyzer "Age" = .error noDataMsg ∧
    plot_histogram initAnalyzer "Age" = .error plotNoDataMsg ∧
    plot_kmeans_cluster initAnalyzer none 3 = .error plotNoDataMsg :=
  no_dataset_checked_first initAnalyzer "Age" "Sex" none 3 rfl

/-- Stateful view of run_t_test: the source method assigns no analyzer
field, so the call pairs the unchanged state with the report. -/
def run_t_test_call (a : DataAnalyzer) (cat_col cont_col : String) :
    DataAnalyzer × Except String (List Val × List Val) :=
  (a, run_t_test a cat_col cont_col)

/-- Stateful view of one_way_anova, which assigns no analyzer field. -/
def one_way_anova_call (a : DataAnalyzer) (cat_col cont_col : String) :
    DataAnalyzer × Except String (List (List Val)) :=
  (a, one_way_anova a cat_col cont_col)

/-- Stateful view of mann_whitney_test, which assigns no analyzer
field. -/
def mann_whitney_test_call (a : DataAnalyzer) (cat_col cont_col : String) :
    DataAnalyzer × Except String (List Val × List Val) :=
  (a, mann_whitney_test a cat_col cont_col)

/-- Stateful view of get_descriptive_stats, which assigns no analyzer
field. -/
def get_descriptive_stats_call (a : DataAnalyzer) (column : String) :
    DataAnalyzer × Except String (List Cell) :=
  (a, get_descriptive_stats a column)

/-- C8: whenever a call fails with a validation error message, the
analyzer state after the call equals the one before it: same frame and
same cached role lists. -/
theorem validation_error_preserves_state (a : DataAnalyzer) (c1 c2 : String)
    (e : String) :
    ((run_t_test_call a c1 c2).2 = .error e →
      (run_t_test_call a c1 c2).1.df = a.df ∧
      (run_t_test_call a c1 c2).1.continuous_cols = a.continuous_cols ∧
      (run_t_test_call a c1 c2).1.categorical_cols = a.categorical_cols) ∧
    ((one_way_anova_call a c1 c2).2 = .error e →
      (one_way_anova_call a c1 c2).1.df = a.df ∧
      (one_way_anova_call a c1 c2).1.continuous_cols = a.continuous_cols ∧
      (one_way_anova_call a c1 c2).1.categorical_cols = a.categorical_cols) ∧
    ((mann_whitney_test_call a c1 c2).2 = .error e →
      (mann_whitney_test_call a c1 c2).1.df = a.df ∧
      (mann_whitney_test_call a c1 c2).1.continuous_cols = a.continuous_cols ∧
      (mann_whitney_test_call a c1 c2).1.categorical_cols = a.categorical_cols) ∧
    ((get_descriptive_stats_call a c1).2 = .error e →
      (get_descriptive_stats_call a c1).1.df = a.df ∧
      (get_descriptive_stats_call a c1).1.continuous_cols = a.continuous_cols ∧
      (get_descriptive_stats_call a c1).1.categorical_cols = a.categorical_cols) :=
  ⟨fun _ => ⟨rfl, rfl, rfl⟩, fun _ => ⟨rfl, rfl, rfl⟩,
    fun _ => ⟨rfl, rfl, rfl⟩, fun _ => ⟨rfl, rfl, rfl⟩⟩

/-- C8 witness: a t-test call failing the group-count validation on the
3-category frame leaves frame and role caches unchanged. -/
theorem validation_error_preserves_state_witness :
    (run_t_test_call aG3 "g" "x").1.df = aG3.df ∧
    (run_t_test_call aG3 "g" "x").1.continuous_cols = aG3.continuous_cols ∧
    (run_t_test_call aG3 "g" "x").1.categorical_cols = aG3.categorical_cols :=
  (validation_error_preserves_state aG3 "g" "x" (tTestGroupCountMsg "g" 3)).1 rfl

/-- C9: whenever the K-Means figure is produced, the elbow loop computes
an inertia exactly for the k with 1 ≤ k ≤ min 9 (n_samples - 1), and the
highlighted cluster count is the caller's argument, not a computed
best k. -/
theorem elbow_range (a : DataAnalyzer) (columns : Option (List String))
    (n_clusters : Nat) (r : KMeansPlot) (k : Nat)
    (h : plot_kmeans_cluster a columns n_clusters = .ok r) :
    (k ∈ r.elbowKList ↔ 1 ≤ k ∧ k ≤ min 9 (r.nSamples - 1)) ∧
    r.nClusters = n_clusters := by
  rcases hdfe : a.df with - | df
  · simp [plot_kmeans_cluster, hdfe] at h
  · simp only [plot_kmeans_cluster, hdfe] at h
    split at h
    · simp at h
    · split at h
      · injection h with h
        subst h
        refine ⟨?_, rfl⟩
        simp only [List.mem_range'_1]
        omega
      · simp at h

/-- Analyzer state holding the example frame with its detected roles. -/
def aDfEx : DataAnalyzer := ⟨some dfEx, ["Age"], ["Sex"], none⟩

/-- C9 witness: on the 11-row example frame the elbow list is
range(1, 10), k = 5 lies inside the claimed bounds, and the highlighted
count is the requested 3. -/
theorem elbow_range_witness :
    (5 ∈ (⟨3, 11, List.range' 1 9⟩ : KMeansPlot).elbowKList ↔
      1 ≤ 5 ∧ 5 ≤ min 9 ((⟨3, 11, List.range' 1 9⟩ : KMeansPlot).nSamples - 1)) ∧
    (⟨3, 11, List.range' 1 9⟩ : KMeansPlot).nClusters = 3 :=
  elbow_range aDfEx (some ["Age", "Sex"]) 3 ⟨3, 11, List.range' 1 9⟩ 5 rfl

/-- C10: on a two-category grouping column, when either group's
continuous sample is empty after dropping missing values, run_t_test
fails with the empty-group message and never reaches the external
t-test routine. -/
theorem t_test_empty_group_error (a : DataAnalyzer) (df : DataFrame)
    (cat_col cont_col : String) (catc : NamedColumn) (v0 v1 : Val)
    (hdf : a.df = some df)
    (hcat : findCol df cat_col = some catc)
    (hcont : cont_col ∈ colNames df)
    (hu : (pdUnique catc.cells).filterMap id = [v0, v1])
    (hempty : groupVals df cat_col cont_col v0 = [] ∨
      groupVals df cat_col cont_col v1 = []) :
    run_t_test a cat_col cont_col = .error "错误: 分组后没有有效数据" := by
  simp only [run_t_test, hdf, hcat, hu]
  rw [if_neg (not_not_intro hcont)]
  rcases hempty with h | h
  · rw [if_pos (Or.inl (by simp [h]))]
  · rw [if_pos (Or.inr (by simp [h]))]

/-- Example grouping column with 2 distinct values. -/
def gColE : NamedColumn := ⟨"g", true, [some (.int 0), some (.int 0), some (.int 1)]⟩

/-- Example continuous column missing exactly where the grouping value
is 1. -/
def xColE : NamedColumn := ⟨"x", true, [some (.int 5), some (.int 6), none]⟩

/-- Analyzer state in which the second t-test group is empty. -/
def aEmptyG : DataAnalyzer := ⟨some ⟨[gColE, xColE]⟩, [], [], none⟩

/-- C10 witness: the concrete two-category frame whose second group has
no continuous data makes run_t_test fail with the empty-group
message. -/
theorem t_test_empty_group_error_witness :
    run_t_test aEmptyG "g" "x" = .error "错误: 分组后没有有效数据" :=
  t_test_empty_group_error aEmptyG ⟨[gColE, xColE]⟩ "g" "x" gColE (.int 0) (.int 1)
    rfl rfl (by decide) rfl (Or.inr rfl)

end Analysis
